import Mathlib

/-!
# Talksy chat widget (`app.js`): conversation state and request lifecycle

A shallow embedding of the `DOMContentLoaded` closure of `app.js`.

* The closure variables (`isFirstMessage`, `conversation`) and the three DOM
  elements it touches (`chatbox`, `input`, `sendBtn`) form the `State`.
* `sendMessage` is an `async` function with two suspension points
  (`await fetch(...)` and `await response.json()`).  It is embedded as three
  functions: `sendMessage` (the synchronous part up to the first `await`),
  `resumeFetch` (from the settlement of `fetch` to the second `await` or to the
  end) and `resumeJson` (from the settlement of `response.json()` to the end).
* The browser event loop is the transition function `step` over `Event`s; it
  keeps count of the suspended activations and logs every outbound call.
* `marked.parse` (an external library), the text of engine-raised
  `TypeError`s and the browser's reading of markup (which markup, assigned to
  `innerHTML`, yields an element with id `typing-indicator`) are parameters,
  gathered in `Env`.
* The document is the `chatbox` with its content: `getElementById` searches
  the children of `chatbox` in document order, the markup of the messages
  included.

Scrolling (`chatbox.scrollTop`) and focus (`input.focus()`) are presentation
effects that no other statement of the program reads; they are not part of the
state.  The request headers are not modelled.
-/

namespace Talksy

/-! ## Values -/

/-- JavaScript values that can flow through `sendMessage`: the result of
`response.json()` (a JSON value) and `undefined`, which property access on a
JSON value can produce. -/
inductive JsVal where
  | undefined
  | null
  | bool (b : Bool)
  | num (q : ℚ)
  | str (s : String)
  | arr (items : List JsVal)
  | obj (props : List (String × JsVal))

/-- The three role tags used in `conversation`. -/
inductive Role where
  | system
  | user
  | assistant
  deriving DecidableEq, Repr

/-- An entry of `conversation`: `{ role, content }`. -/
structure Message where
  role : Role
  content : JsVal

/-- The parameters of the embedding that are not defined in `app.js`. -/
structure Env where
  /-- The call `marked.parse(message)`: the produced HTML, or the message of the
  error it throws. -/
  markedParse : JsVal → Except String String
  /-- The `message` of the `TypeError` the engine raises when property `key` is
  read from `undefined` or `null`. -/
  typeErrorMessage : JsVal → String → String
  /-- Whether markup assigned to `innerHTML` yields an element with id
  `typing-indicator`. -/
  hasIndicatorId : String → Bool
  /-- The markup left when the first element with id `typing-indicator` that
  the given markup yields is removed from the document. -/
  removeIndicatorId : String → String

/-! ## `String.prototype.trim` -/

/-- ECMAScript `WhiteSpace` code points (TAB, VT, FF, ZWNBSP and category Zs). -/
def isWhiteSpace (c : Char) : Bool :=
  c.toNat = 0x9 || c.toNat = 0xB || c.toNat = 0xC || c.toNat = 0x20 ||
  c.toNat = 0xA0 || c.toNat = 0x1680 ||
  (0x2000 ≤ c.toNat && c.toNat ≤ 0x200A) ||
  c.toNat = 0x202F || c.toNat = 0x205F || c.toNat = 0x3000 || c.toNat = 0xFEFF

/-- ECMAScript `LineTerminator` code points (LF, CR, LS, PS). -/
def isLineTerminator (c : Char) : Bool :=
  c.toNat = 0xA || c.toNat = 0xD || c.toNat = 0x2028 || c.toNat = 0x2029

/-- The characters `trim` strips. -/
def isTrimmed (c : Char) : Bool :=
  isWhiteSpace c || isLineTerminator c

/-- The method `String.prototype.trim`: strip white space and line terminators
from both ends. -/
def trim (s : String) : String :=
  String.mk ((s.data.dropWhile isTrimmed).rdropWhile isTrimmed)

/-! ## The page -/

/-- A child of `chatbox`. -/
inductive Node where
  /-- Content present in the page before the first message. -/
  | static (html : String)
  /-- The `div` built by `appendMessage`: its `className`, the text of its
  `message-icon` child and the `innerHTML` of its `message-text` child. -/
  | message (className : String) (icon : String) (html : String)
  /-- The `div` with id `typing-indicator` built by `showTypingIndicator`. -/
  | typing
  deriving DecidableEq, Repr

/-- The `chatbox` element: its children and whether its class list holds
`welcome`. -/
structure Chatbox where
  children : List Node
  welcome : Bool

/-- The `input` element. -/
structure Input where
  value : String
  disabled : Bool

/-- The `sendBtn` element. -/
structure Button where
  disabled : Bool

/-- The variables of the closure and the elements it holds. -/
structure State where
  isFirstMessage : Bool
  conversation : List Message
  chatbox : Chatbox
  input : Input
  sendBtn : Button

/-- The system prompt, first element of `conversation`. -/
def systemMessage : Message :=
  { role := Role.system
    content := JsVal.str "You are a helpful assistant named Talksy. Always answer in clean Markdown format with headings, bullet points, and bold keywords for readability." }

/-- The state when the `DOMContentLoaded` listener has run: `welcomeHtml` and
`welcomeClass` describe the `chatbox` of the page as loaded. -/
def init (welcomeHtml : List String) (welcomeClass : Bool) : State :=
  { isFirstMessage := true
    conversation := [systemMessage]
    chatbox := { children := welcomeHtml.map Node.static, welcome := welcomeClass }
    input := { value := "", disabled := false }
    sendBtn := { disabled := false } }

/-! ## The outbound call -/

/-- The object passed to `JSON.stringify` for the body of the `fetch` call,
with the address and method of the call. -/
structure Request where
  url : String
  method : String
  model : String
  messages : List Message
  max_tokens : Nat
  temperature : ℚ

/-- The `fetch` call of `sendMessage`, for the current `conversation`. -/
def request (conversation : List Message) : Request :=
  { url := "https://api.groq.com/openai/v1/chat/completions"
    method := "POST"
    model := "llama3-8b-8192"
    messages := conversation
    max_tokens := 200
    temperature := 7 / 10 }

/-- How the promise returned by `fetch` settles: rejected with an error that
carries `message`, or fulfilled with a response of the given `status`. -/
inductive FetchResult where
  | rejected (message : String)
  | response (status : Nat)

/-- The getter `response.ok`: the status is in the range 200-299. -/
def responseOk (status : Nat) : Bool :=
  200 ≤ status && status ≤ 299

/-! ## Property access -/

/-- Own property lookup in a parsed JSON object. -/
def lookup (key : String) : List (String × JsVal) → JsVal
  | [] => JsVal.undefined
  | (k, v) :: rest => if k = key then v else lookup key rest

/-- The access `v.key` for a property name `key` that is neither an array index
nor defined on a prototype (`choices`, `message`, `content`). -/
def getField (env : Env) (v : JsVal) (key : String) : Except String JsVal :=
  match v with
  | JsVal.undefined => Except.error (env.typeErrorMessage v key)
  | JsVal.null => Except.error (env.typeErrorMessage v key)
  | JsVal.obj props => Except.ok (lookup key props)
  | _ => Except.ok JsVal.undefined

/-- The access `v[0]`.  For a string the result is its first code unit, here
its first character. -/
def getIndex0 (env : Env) (v : JsVal) : Except String JsVal :=
  match v with
  | JsVal.undefined => Except.error (env.typeErrorMessage v "0")
  | JsVal.null => Except.error (env.typeErrorMessage v "0")
  | JsVal.obj props => Except.ok (lookup "0" props)
  | JsVal.arr [] => Except.ok JsVal.undefined
  | JsVal.arr (x :: _) => Except.ok x
  | JsVal.str s =>
    match s.data with
    | [] => Except.ok JsVal.undefined
    | c :: _ => Except.ok (JsVal.str (String.mk [c]))
  | _ => Except.ok JsVal.undefined

/-- The expression `data.choices[0].message.content`. -/
def botReplyOf (env : Env) (data : JsVal) : Except String JsVal :=
  match getField env data "choices" with
  | Except.error e => Except.error e
  | Except.ok choices =>
    match getIndex0 env choices with
    | Except.error e => Except.error e
    | Except.ok choice =>
      match getField env choice "message" with
      | Except.error e => Except.error e
      | Except.ok message => getField env message "content"

/-! ## The functions of `app.js` -/

/-- The function `appendMessage(sender, message, type)`.  When `marked.parse`
throws, the elements built so far are not attached and the page is unchanged. -/
def appendMessage (env : Env) (sender : String) (message : JsVal) (type : String)
    (s : State) : Except String State :=
  match env.markedParse message with
  | Except.error e => Except.error e
  | Except.ok html =>
    Except.ok { s with chatbox := { s.chatbox with
      children := s.chatbox.children ++
        [Node.message ("message " ++ type ++ "-message")
          (if sender = "user" then "U" else "B") html] } }

/-- The function `showTypingIndicator()`. -/
def showTypingIndicator (s : State) : State :=
  { s with chatbox := { s.chatbox with children := s.chatbox.children ++ [Node.typing] } }

/-- Whether a child of `chatbox` is, or holds, an element with id
`typing-indicator`.  The `div` built by `appendMessage` and its icon carry no
id; the markup of its text may. -/
def holdsIndicator (env : Env) : Node → Bool
  | Node.static html => env.hasIndicatorId html
  | Node.message _ _ html => env.hasIndicatorId html
  | Node.typing => true

/-- The children of `chatbox` after `indicator.remove()` on the first element
with id `typing-indicator` in document order: the `div` of
`showTypingIndicator` is removed whole, an element inside the markup of an
earlier child is removed from that markup. -/
def removeFirstIndicator (env : Env) : List Node → List Node
  | [] => []
  | Node.typing :: rest => rest
  | Node.static html :: rest =>
    if env.hasIndicatorId html then Node.static (env.removeIndicatorId html) :: rest
    else Node.static html :: removeFirstIndicator env rest
  | Node.message className icon html :: rest =>
    if env.hasIndicatorId html then
      Node.message className icon (env.removeIndicatorId html) :: rest
    else Node.message className icon html :: removeFirstIndicator env rest

/-- The function `removeTypingIndicator()`: the first element of the document
with id `typing-indicator`, if any, is removed. -/
def removeTypingIndicator (env : Env) (s : State) : State :=
  { s with chatbox := { s.chatbox with
      children := removeFirstIndicator env s.chatbox.children } }

/-- What an invocation of `sendMessage` does up to its first suspension. -/
inductive Started where
  /-- The early `return` of line 62. -/
  | returned (s : State)
  /-- An exception of `appendMessage` at line 70, outside the `try`. -/
  | threw (s : State) (message : String)
  /-- Suspended at `await fetch(...)`, the call `req` issued. -/
  | awaitFetch (s : State) (req : Request)

/-- The function `sendMessage()`, lines 61-92: from the invocation to the first
`await`. -/
def sendMessage (env : Env) (s : State) : Started :=
  let userText := trim s.input.value
  if userText = "" then Started.returned s
  else
    let s1 : State :=
      if s.isFirstMessage then
        { s with chatbox := { children := [], welcome := false }, isFirstMessage := false }
      else s
    match appendMessage env "user" (JsVal.str userText) "user" s1 with
    | Except.error e => Started.threw s1 e
    | Except.ok s2 =>
      let s3 : State :=
        { s2 with conversation := s2.conversation ++ [{ role := Role.user, content := JsVal.str userText }] }
      let s4 : State :=
        { s3 with input := { value := "", disabled := true }, sendBtn := { disabled := true } }
      let s5 := showTypingIndicator s4
      Started.awaitFetch s5 (request s5.conversation)

/-- The `finally` block, lines 108-112. -/
def finallyBlock (s : State) : State :=
  { s with input := { s.input with disabled := false }, sendBtn := { disabled := false } }

/-- The `catch` block for an error carrying `message`, followed by the
`finally` block.  An exception of `appendMessage` inside the `catch` block
leaves the block; the `finally` block runs all the same. -/
def catchFinally (env : Env) (s : State) (message : String) : State :=
  let s1 := removeTypingIndicator env s
  match appendMessage env "bot" (JsVal.str ("Error: " ++ message)) "bot" s1 with
  | Except.error _ => finallyBlock s1
  | Except.ok s2 => finallyBlock s2

/-- Where an activation resumed at the settlement of `fetch` gets to. -/
inductive Resumed where
  /-- The function ran to its end. -/
  | done (s : State)
  /-- Suspended at `await response.json()`. -/
  | awaitJson (s : State)

/-- The function `sendMessage()`, lines 80-98: from the settlement of `fetch`
to the second `await`, or through `catch` and `finally` to the end. -/
def resumeFetch (env : Env) (s : State) : FetchResult → Resumed
  | FetchResult.rejected message => Resumed.done (catchFinally env s message)
  | FetchResult.response status =>
    if responseOk status then Resumed.awaitJson s
    else Resumed.done (catchFinally env s ("API error: " ++ toString status))

/-- The function `sendMessage()`, lines 98-112: from the settlement of
`response.json()` (rejected with an error message, or fulfilled with `data`) to
the end. -/
def resumeJson (env : Env) (s : State) : Except String JsVal → State
  | Except.error message => catchFinally env s message
  | Except.ok data =>
    match botReplyOf env data with
    | Except.error e => catchFinally env s e
    | Except.ok botReply =>
      let s1 := removeTypingIndicator env s
      match appendMessage env "bot" botReply "bot" s1 with
      | Except.error e => catchFinally env s1 e
      | Except.ok s2 =>
        finallyBlock
          { s2 with conversation := s2.conversation ++ [{ role := Role.assistant, content := botReply }] }

/-! ## The event loop -/

/-- The page together with the suspended activations of `sendMessage` and the
log of the outbound calls issued so far. -/
structure Sys where
  page : State
  /-- Activations suspended at `await fetch(...)`. -/
  awaitingFetch : Nat
  /-- Activations suspended at `await response.json()`. -/
  awaitingJson : Nat
  sent : List Request

/-- The system when the `DOMContentLoaded` listener has run. -/
def initSys (welcomeHtml : List String) (welcomeClass : Bool) : Sys :=
  { page := init welcomeHtml welcomeClass, awaitingFetch := 0, awaitingJson := 0, sent := [] }

/-- The number of activations of `sendMessage` that have not completed. -/
def Sys.pending (σ : Sys) : Nat :=
  σ.awaitingFetch + σ.awaitingJson

/-- What the event loop delivers. -/
inductive Event where
  /-- The user edits the text field to hold `v`. -/
  | typeText (v : String)
  /-- The `click` listener of `sendBtn` runs. -/
  | click
  /-- The `keydown` listener of `input` runs with `e.key = key`. -/
  | keydown (key : String)
  /-- The promise of a pending `fetch` settles. -/
  | fetchSettled (r : FetchResult)
  /-- The promise of a pending `response.json()` settles. -/
  | jsonSettled (r : Except String JsVal)

/-- An invocation of `sendMessage` from a listener.  The promise it returns is
dropped, so an exception that leaves the function is observed by nobody. -/
def invoke (env : Env) (σ : Sys) : Sys :=
  match sendMessage env σ.page with
  | Started.returned s => { σ with page := s }
  | Started.threw s _ => { σ with page := s }
  | Started.awaitFetch s req =>
    { σ with page := s, awaitingFetch := σ.awaitingFetch + 1, sent := σ.sent ++ [req] }

/-- One turn of the event loop.  A disabled text field cannot be edited by the
user, so `typeText` leaves it as it is; the two listeners are run whether or
not their element is disabled; a settlement is delivered only to a suspended
activation. -/
def step (env : Env) (σ : Sys) : Event → Sys
  | Event.typeText v =>
    if σ.page.input.disabled then σ
    else { σ with page := { σ.page with input := { σ.page.input with value := v } } }
  | Event.click => invoke env σ
  | Event.keydown key => if key = "Enter" then invoke env σ else σ
  | Event.fetchSettled r =>
    if σ.awaitingFetch = 0 then σ
    else
      match resumeFetch env σ.page r with
      | Resumed.done s => { σ with page := s, awaitingFetch := σ.awaitingFetch - 1 }
      | Resumed.awaitJson s =>
        { σ with page := s, awaitingFetch := σ.awaitingFetch - 1, awaitingJson := σ.awaitingJson + 1 }
  | Event.jsonSettled r =>
    if σ.awaitingJson = 0 then σ
    else { σ with page := resumeJson env σ.page r, awaitingJson := σ.awaitingJson - 1 }

/-- A run of the event loop. -/
def run (env : Env) (σ : Sys) (events : List Event) : Sys :=
  events.foldl (step env) σ

/-- The states the page can be in: those the event loop produces from the
loaded page. -/
inductive Reachable (env : Env) : Sys → Prop where
  | init (welcomeHtml : List String) (welcomeClass : Bool) :
      Reachable env (initSys welcomeHtml welcomeClass)
  | step {σ : Sys} (h : Reachable env σ) (e : Event) : Reachable env (step env σ e)

/-- Markup of one element with id `typing-indicator`. -/
def indicatorMarkup : String :=
  "<i id=\"typing-indicator\">x</i>"

/-- A renderer for concrete runs: a string is rendered as itself (raw HTML
passes through), and anything else is refused with the messages `marked`
gives. -/
def markedStrict : JsVal → Except String String
  | JsVal.str s => Except.ok s
  | JsVal.undefined => Except.error "marked(): input parameter is undefined or null"
  | JsVal.null => Except.error "marked(): input parameter is undefined or null"
  | _ => Except.error "marked(): input parameter is of type [object Object], string expected"

/-- An environment for concrete runs.  Of the markup rendered in the runs of
this file, `indicatorMarkup` alone yields an element with id
`typing-indicator`; it is that element and nothing else, so its removal leaves
the empty markup. -/
def envStrict : Env :=
  { markedParse := markedStrict
    typeErrorMessage := fun _ key => "Cannot read properties of undefined (reading " ++ key ++ ")"
    hasIndicatorId := fun html => decide (html = indicatorMarkup)
    removeIndicatorId := fun html => if html = indicatorMarkup then "" else html }

/-! ## Shape of the transcript -/

/-- The transcripts that pushes of `sendMessage` build from the initial one: a
user entry may follow anything, an assistant entry follows a user entry. -/
inductive Shape : List Message → Prop where
  | start : Shape [systemMessage]
  | user (c : List Message) (u : JsVal) : Shape c → Shape (c ++ [{ role := Role.user, content := u }])
  | reply (c : List Message) (u r : JsVal) :
      Shape (c ++ [{ role := Role.user, content := u }]) →
      Shape ((c ++ [{ role := Role.user, content := u }]) ++ [{ role := Role.assistant, content := r }])

/-- The number of entries of `c` with role `r`. -/
def countRole (r : Role) (c : List Message) : Nat :=
  (c.filter (fun m => decide (m.role = r))).length

/-- The invariant of the event loop. -/
structure Inv (σ : Sys) : Prop where
  pending_le : σ.pending ≤ 1
  shape : Shape σ.page.conversation
  idle : σ.pending = 0 →
    σ.page.input.disabled = false ∧ σ.page.sendBtn.disabled = false
  sending : σ.pending = 1 →
    σ.page.input.disabled = true ∧ σ.page.sendBtn.disabled = true ∧
      σ.page.input.value = "" ∧ σ.page.isFirstMessage = false ∧
      ∃ c u, σ.page.conversation = c ++ [{ role := Role.user, content := u }]

/-- The children of `chatbox` after the `catch` block for an error carrying
`message`. -/
def errorChildren (env : Env) (children : List Node) (message : String) : List Node :=
  match env.markedParse (JsVal.str ("Error: " ++ message)) with
  | Except.error _ => removeFirstIndicator env children
  | Except.ok html =>
    removeFirstIndicator env children ++ [Node.message "message bot-message" "B" html]

/-- Settlements of promises, as opposed to what the user does. -/
def Event.isSettlement : Event → Bool
  | Event.fetchSettled _ => true
  | Event.jsonSettled _ => true
  | _ => false

/-- The outbound call fails: `fetch` rejects, or the status of the response is
not in the range 200-299. -/
def FetchResult.failed : FetchResult → Bool
  | FetchResult.rejected _ => true
  | FetchResult.response status => !responseOk status

/-- The message of the error caught when the outbound call fails. -/
def FetchResult.errorMessage : FetchResult → String
  | FetchResult.rejected message => message
  | FetchResult.response status => "API error: " ++ toString status

/-- The page when `sendMessage` suspends at `await fetch(...)`, the user text
`u` rendered as `html`. -/
def afterSubmit (s : State) (u html : String) : State :=
  { isFirstMessage := false
    conversation := s.conversation ++ [{ role := Role.user, content := JsVal.str u }]
    chatbox :=
      { children := (if s.isFirstMessage then [] else s.chatbox.children) ++
          [Node.message "message user-message" "U" html] ++ [Node.typing]
        welcome := if s.isFirstMessage then false else s.chatbox.welcome }
    input := { value := "", disabled := true }
    sendBtn := { disabled := true } }

/-- The loaded page with `Hi` typed into the text field. -/
def typedHi : Sys :=
  step envStrict (initSys ["welcome"] true) (Event.typeText "Hi")

/-- The page `typedHi` after a click on the send button: the call is pending. -/
def sentHi : Sys :=
  step envStrict typedHi Event.click

/-- The loaded page after a submission of `Hi` that fails with HTTP 500 and a
submission of `again`. -/
def twoUsers : Sys :=
  run envStrict (initSys [] true)
    [Event.typeText "Hi", Event.click, Event.fetchSettled (FetchResult.response 500),
      Event.typeText "again", Event.click]

/-- One of `choices`, `choices[0]` and `choices[0].message` is missing from
`data`: reading it gives `undefined`. -/
def replyPathMissing (env : Env) (data : JsVal) : Prop :=
  getField env data "choices" = Except.ok JsVal.undefined ∨
  (∃ choices, getField env data "choices" = Except.ok choices ∧
    getIndex0 env choices = Except.ok JsVal.undefined) ∨
  (∃ choices choice, getField env data "choices" = Except.ok choices ∧
    getIndex0 env choices = Except.ok choice ∧
    getField env choice "message" = Except.ok JsVal.undefined)

/-- The property `choices[0].message.content` is missing from `data`: the
message is there and reading its `content` gives `undefined`. -/
def replyContentMissing (env : Env) (data : JsVal) : Prop :=
  ∃ choices choice message, getField env data "choices" = Except.ok choices ∧
    getIndex0 env choices = Except.ok choice ∧
    getField env choice "message" = Except.ok message ∧
    getField env message "content" = Except.ok JsVal.undefined

/-- The children of `chatbox` when `sendMessage` suspends at
`await fetch(...)`, the user text rendered as `htmlU`. -/
def submittedChildren (s : State) (htmlU : String) : List Node :=
  (if s.isFirstMessage then [] else s.chatbox.children) ++
    [Node.message "message user-message" "U" htmlU] ++ [Node.typing]

/-- How a failed exchange for the user text `u` leaves the system `final`,
from the system `σ`, when the chat log before the error entry is `log` and the
error text is rendered as `html`: the chat log ends with one bot entry, the
transcript gains the user entry alone, one call has been issued, no activation
is pending and both controls are enabled. -/
def FailedWith (σ final : Sys) (u : String) (log : List Node) (html : String) : Prop :=
  final.page.chatbox.children = log ++ [Node.message "message bot-message" "B" html] ∧
  final.page.conversation =
    σ.page.conversation ++ [{ role := Role.user, content := JsVal.str u }] ∧
  final.sent = σ.sent ++
    [request (σ.page.conversation ++ [{ role := Role.user, content := JsVal.str u }])] ∧
  final.pending = 0 ∧ final.page.input.disabled = false ∧ final.page.sendBtn.disabled = false

/-- A failed exchange whose bot entry renders a text that starts with
`Error: `; the log before it is the log of the pending exchange after
`removals` calls of `removeTypingIndicator`. -/
def FailedExchange (env : Env) (σ final : Sys) (u htmlU : String) (removals : Nat) : Prop :=
  ∃ message html, env.markedParse (JsVal.str ("Error: " ++ message)) = Except.ok html ∧
    FailedWith σ final u
      ((removeFirstIndicator env)^[removals] (submittedChildren σ.page htmlU)) html

/-- The page `sentHi` after the reply `Hello` has arrived. -/
def repliedHi : Sys :=
  run envStrict sentHi
    [Event.fetchSettled (FetchResult.response 200),
      Event.jsonSettled (Except.ok (JsVal.obj [("choices", JsVal.arr
        [JsVal.obj [("message", JsVal.obj [("content", JsVal.str "Hello")])]])]))]

/-- The loaded page with `indicatorMarkup` typed into the text field. -/
def typedIndicator : Sys :=
  step envStrict (initSys ["welcome"] true) (Event.typeText indicatorMarkup)

/-- The page `typedIndicator` after a click, a response with status 200 and
the reply `Hello`. -/
def repliedIndicator : Sys :=
  run envStrict typedIndicator
    [Event.click, Event.fetchSettled (FetchResult.response 200),
      Event.jsonSettled (Except.ok (JsVal.obj [("choices", JsVal.arr
        [JsVal.obj [("message", JsVal.obj [("content", JsVal.str "Hello")])]])]))]

/-- How the chat log `children` shows a failure after a submission from the
page `s`, the user text rendered as `htmlU` and the error text as `html`: it
is the log of the pending exchange after one call of `removeTypingIndicator`,
followed by the bot entry for the error; the user entry stands before that
entry; and when no child of the log before the submission and no markup of the
user text holds an element with id `typing-indicator`, it is that log followed
by the user entry and the error entry. -/
def ErrorEntry (env : Env) (s : State) (htmlU html : String) (children : List Node) : Prop :=
  children = removeFirstIndicator env (submittedChildren s htmlU) ++
    [Node.message "message bot-message" "B" html] ∧
  (∃ pre h post, children = pre ++ [Node.message "message user-message" "U" h] ++ post ++
    [Node.message "message bot-message" "B" html]) ∧
  ((∀ n ∈ (if s.isFirstMessage then [] else s.chatbox.children), holdsIndicator env n = false) →
    env.hasIndicatorId htmlU = false →
    children = (if s.isFirstMessage then [] else s.chatbox.children) ++
      [Node.message "message user-message" "U" htmlU,
        Node.message "message bot-message" "B" html])

/-! ## Lemmas on `trim` -/

theorem dropWhile_eq_nil_of_all {α : Type} (p : α → Bool) (l : List α)
    (h : ∀ a ∈ l, p a = true) : l.dropWhile p = [] := by
  induction l with
  | nil => rfl
  | cons a t ih =>
    have ha : p a = true := h a (List.mem_cons_self a t)
    simp only [List.dropWhile_cons, ha, if_true]
    exact ih (fun b hb => h b (List.mem_cons_of_mem a hb))

theorem trim_of_all_trimmed (v : String) (h : ∀ c ∈ v.data, isTrimmed c = true) :
    trim v = "" := by
  unfold trim
  rw [dropWhile_eq_nil_of_all isTrimmed v.data h]
  rfl

theorem trim_empty : trim "" = "" := by decide

/-! ## Lemmas on the functions of `app.js` -/

theorem sendMessage_of_trim_empty (env : Env) (s : State) (h : trim s.input.value = "") :
    sendMessage env s = Started.returned s := by
  simp [sendMessage, h]

theorem invoke_of_trim_empty (env : Env) (σ : Sys) (h : trim σ.page.input.value = "") :
    invoke env σ = σ := by
  simp [invoke, sendMessage_of_trim_empty env σ.page h]

theorem sendMessage_of_parse (env : Env) (s : State) (html : String)
    (hne : trim s.input.value ≠ "")
    (hp : env.markedParse (JsVal.str (trim s.input.value)) = Except.ok html) :
    sendMessage env s = Started.awaitFetch
      { isFirstMessage := false
        conversation := s.conversation ++ [{ role := Role.user, content := JsVal.str (trim s.input.value) }]
        chatbox :=
          { children := (if s.isFirstMessage then [] else s.chatbox.children) ++
              [Node.message "message user-message" "U" html] ++ [Node.typing]
            welcome := if s.isFirstMessage then false else s.chatbox.welcome }
        input := { value := "", disabled := true }
        sendBtn := { disabled := true } }
      (request (s.conversation ++ [{ role := Role.user, content := JsVal.str (trim s.input.value) }])) := by
  cases hf : s.isFirstMessage <;>
    simp [sendMessage, hne, appendMessage, hp, showTypingIndicator, hf]

theorem catchFinally_eq (env : Env) (s : State) (message : String) :
    catchFinally env s message =
      { s with
        chatbox := { s.chatbox with children := errorChildren env s.chatbox.children message }
        input := { s.input with disabled := false }
        sendBtn := { disabled := false } } := by
  unfold catchFinally errorChildren appendMessage
  cases env.markedParse (JsVal.str ("Error: " ++ message)) <;>
    simp [removeTypingIndicator, finallyBlock]

theorem sendMessage_cases (env : Env) (s : State) :
    (trim s.input.value = "" ∧ sendMessage env s = Started.returned s) ∨
    (trim s.input.value ≠ "" ∧ ∃ e,
      env.markedParse (JsVal.str (trim s.input.value)) = Except.error e ∧
      sendMessage env s = Started.threw
        { s with
          isFirstMessage := false
          chatbox := if s.isFirstMessage then { children := [], welcome := false } else s.chatbox } e) ∨
    (trim s.input.value ≠ "" ∧ ∃ html,
      env.markedParse (JsVal.str (trim s.input.value)) = Except.ok html ∧
      sendMessage env s = Started.awaitFetch
        { isFirstMessage := false
          conversation := s.conversation ++ [{ role := Role.user, content := JsVal.str (trim s.input.value) }]
          chatbox :=
            { children := (if s.isFirstMessage then [] else s.chatbox.children) ++
                [Node.message "message user-message" "U" html] ++ [Node.typing]
              welcome := if s.isFirstMessage then false else s.chatbox.welcome }
          input := { value := "", disabled := true }
          sendBtn := { disabled := true } }
        (request (s.conversation ++ [{ role := Role.user, content := JsVal.str (trim s.input.value) }]))) := by
  by_cases hne : trim s.input.value = ""
  · exact Or.inl ⟨hne, sendMessage_of_trim_empty env s hne⟩
  · right
    cases hp : env.markedParse (JsVal.str (trim s.input.value)) with
    | error e =>
      left
      refine ⟨hne, e, rfl, ?_⟩
      obtain ⟨f, c, cb, i, b⟩ := s
      cases f <;> simp_all [sendMessage, appendMessage]
    | ok html =>
      right
      exact ⟨hne, html, rfl, sendMessage_of_parse env s html hne hp⟩

/-! ## The invariant holds in every reachable state -/

theorem inv_initSys (welcomeHtml : List String) (welcomeClass : Bool) :
    Inv (initSys welcomeHtml welcomeClass) := by
  refine ⟨by simp [initSys, Sys.pending], Shape.start, ?_, ?_⟩
  · intro _
    exact ⟨rfl, rfl⟩
  · intro h
    simp [initSys, Sys.pending] at h

theorem pending_zero_of_trim_ne {σ : Sys} (h : Inv σ) (hne : trim σ.page.input.value ≠ "") :
    σ.pending = 0 := by
  by_contra hp
  have h1 : σ.pending = 1 := by have := h.pending_le; omega
  have hv := (h.sending h1).2.2.1
  rw [hv] at hne
  exact hne trim_empty

theorem inv_invoke (env : Env) {σ : Sys} (h : Inv σ) : Inv (invoke env σ) := by
  rcases sendMessage_cases env σ.page with ⟨ht, _⟩ | ⟨hne, e, _, hs⟩ | ⟨hne, html, _, hs⟩
  · rw [invoke_of_trim_empty env σ ht]
    exact h
  · have hp0 := pending_zero_of_trim_ne h hne
    have hi := h.idle hp0
    have hsh := h.shape
    simp only [Sys.pending] at hp0
    unfold invoke
    rw [hs]
    refine ⟨by simp [Sys.pending, hp0], hsh, ?_, ?_⟩
    · intro _
      exact ⟨hi.1, hi.2⟩
    · intro h1
      simp [Sys.pending, hp0] at h1
  · have hp0 := pending_zero_of_trim_ne h hne
    have hi := h.idle hp0
    have hsh := h.shape
    simp only [Sys.pending] at hp0
    unfold invoke
    rw [hs]
    have hf0 : σ.awaitingFetch = 0 := by omega
    have hj0 : σ.awaitingJson = 0 := by omega
    refine ⟨by simp [Sys.pending, hf0, hj0], Shape.user _ _ hsh, ?_, ?_⟩
    · intro h0
      simp [Sys.pending] at h0
    · intro _
      exact ⟨rfl, rfl, rfl, rfl, _, _, rfl⟩

theorem inv_catchFinally (env : Env) {σ : Sys} (h : Inv σ) (_h1 : σ.pending = 1)
    (message : String) (τ : Sys) (hpage : τ.page = catchFinally env σ.page message)
    (hpend : τ.pending = 0) : Inv τ := by
  refine ⟨by omega, ?_, ?_, ?_⟩
  · rw [hpage, catchFinally_eq]
    exact h.shape
  · intro _
    rw [hpage, catchFinally_eq]
    exact ⟨rfl, rfl⟩
  · intro h2
    omega

theorem inv_step (env : Env) {σ : Sys} (h : Inv σ) (e : Event) : Inv (step env σ e) := by
  cases e with
  | typeText v =>
    simp only [step]
    split
    · exact h
    · rename_i hd
      have hp0 : σ.pending = 0 := by
        by_contra hp
        have h1 : σ.pending = 1 := by have := h.pending_le; omega
        exact hd (h.sending h1).1
      have hi := h.idle hp0
      refine ⟨h.pending_le, h.shape, fun _ => ⟨?_, hi.2⟩, ?_⟩
      · simpa using hd
      · intro h1
        simp only [Sys.pending] at h1 hp0
        omega
  | click => exact inv_invoke env h
  | keydown key =>
    simp only [step]
    split
    · exact inv_invoke env h
    · exact h
  | fetchSettled r =>
    simp only [step]
    split
    · exact h
    · rename_i hf
      have hle := h.pending_le
      have h1 : σ.pending = 1 := by simp only [Sys.pending] at hle ⊢; omega
      have hf1 : σ.awaitingFetch = 1 := by simp only [Sys.pending] at h1; omega
      have hj0 : σ.awaitingJson = 0 := by simp only [Sys.pending] at h1; omega
      cases r with
      | rejected message =>
        simp only [resumeFetch]
        exact inv_catchFinally env h h1 message _ rfl (by simp [Sys.pending, hf1, hj0])
      | response status =>
        by_cases hok : responseOk status = true
        · simp only [resumeFetch, hok, ↓reduceIte]
          have hs := h.sending h1
          refine ⟨by simp [Sys.pending, hf1, hj0], h.shape, ?_, fun _ => hs⟩
          intro h0
          simp [Sys.pending, hf1, hj0] at h0
        · simp only [resumeFetch, hok, ↓reduceIte]
          exact inv_catchFinally env h h1 _ _ rfl (by simp [Sys.pending, hf1, hj0])
  | jsonSettled r =>
    simp only [step]
    split
    · exact h
    · rename_i hj
      have hle := h.pending_le
      have h1 : σ.pending = 1 := by simp only [Sys.pending] at hle ⊢; omega
      have hj1 : σ.awaitingJson = 1 := by simp only [Sys.pending] at h1; omega
      have hf0 : σ.awaitingFetch = 0 := by simp only [Sys.pending] at h1; omega
      have hs := h.sending h1
      cases r with
      | error message =>
        simp only [resumeJson]
        exact inv_catchFinally env h h1 message _ rfl (by simp [Sys.pending, hf0, hj1])
      | ok data =>
        simp only [resumeJson]
        split
        · exact inv_catchFinally env h h1 _ _ rfl (by simp [Sys.pending, hf0, hj1])
        · rename_i botReply _
          simp only [appendMessage]
          split
          · rename_i e hparse
            split at hparse
            · refine ⟨by simp [Sys.pending, hf0, hj1], ?_, ?_, ?_⟩
              · rw [catchFinally_eq]
                exact h.shape
              · intro _
                rw [catchFinally_eq]
                exact ⟨rfl, rfl⟩
              · intro h2
                simp [Sys.pending, hf0, hj1] at h2
            · cases hparse
          · rename_i s2 hparse
            split at hparse
            · cases hparse
            · cases hparse
              obtain ⟨c, u, hc⟩ := hs.2.2.2.2
              refine ⟨by simp [Sys.pending, hf0, hj1], ?_, ?_, ?_⟩
              · simp only [finallyBlock, removeTypingIndicator]
                rw [hc]
                apply Shape.reply
                rw [← hc]
                exact h.shape
              · intro _
                exact ⟨rfl, rfl⟩
              · intro h2
                simp [Sys.pending, hf0, hj1] at h2

theorem inv_of_reachable (env : Env) {σ : Sys} (h : Reachable env σ) : Inv σ := by
  induction h with
  | init welcomeHtml welcomeClass => exact inv_initSys welcomeHtml welcomeClass
  | step _ e ih => exact inv_step env ih e

/-! ## One exchange, step by step -/

theorem step_submit (env : Env) (σ : Sys) (submit : Event) (html : String)
    (hsubmit : submit = Event.click ∨ submit = Event.keydown "Enter")
    (hne : trim σ.page.input.value ≠ "")
    (hp : env.markedParse (JsVal.str (trim σ.page.input.value)) = Except.ok html) :
    step env σ submit =
      { page := afterSubmit σ.page (trim σ.page.input.value) html
        awaitingFetch := σ.awaitingFetch + 1
        awaitingJson := σ.awaitingJson
        sent := σ.sent ++ [request (σ.page.conversation ++
          [{ role := Role.user, content := JsVal.str (trim σ.page.input.value) }])] } := by
  have hi : invoke env σ =
      { page := afterSubmit σ.page (trim σ.page.input.value) html
        awaitingFetch := σ.awaitingFetch + 1
        awaitingJson := σ.awaitingJson
        sent := σ.sent ++ [request (σ.page.conversation ++
          [{ role := Role.user, content := JsVal.str (trim σ.page.input.value) }])] } := by
    unfold invoke
    rw [sendMessage_of_parse env σ.page html hne hp]
    rfl
  rcases hsubmit with rfl | rfl
  · exact hi
  · simpa [step] using hi

theorem quiet_step (env : Env) (σ : Sys) (e : Event)
    (hd : σ.page.input.disabled = true) (hv : σ.page.input.value = "")
    (he : e.isSettlement = false) : step env σ e = σ := by
  have ht : trim σ.page.input.value = "" := by rw [hv]; exact trim_empty
  cases e with
  | typeText v => simp [step, hd]
  | click => exact invoke_of_trim_empty env σ ht
  | keydown key =>
    simp only [step]
    split
    · exact invoke_of_trim_empty env σ ht
    · rfl
  | fetchSettled r => simp [Event.isSettlement] at he
  | jsonSettled r => simp [Event.isSettlement] at he

theorem quiet_run (env : Env) (σ : Sys) (noise : List Event)
    (hd : σ.page.input.disabled = true) (hv : σ.page.input.value = "")
    (hq : ∀ e ∈ noise, e.isSettlement = false) : run env σ noise = σ := by
  induction noise with
  | nil => rfl
  | cons e t ih =>
    have he := quiet_step env σ e hd hv (hq e (List.mem_cons_self e t))
    simp only [run, List.foldl_cons, he]
    exact ih (fun x hx => hq x (List.mem_cons_of_mem e hx))

theorem run_append (env : Env) (σ : Sys) (xs ys : List Event) :
    run env σ (xs ++ ys) = run env (run env σ xs) ys := by
  simp [run, List.foldl_append]

theorem run_cons (env : Env) (σ : Sys) (e : Event) (es : List Event) :
    run env σ (e :: es) = run env (step env σ e) es := rfl

theorem run_nil (env : Env) (σ : Sys) : run env σ [] = σ := rfl

/-- From a submission to the suspension at `await fetch(...)`, whatever the
user does meanwhile. -/
theorem run_submit (env : Env) (σ : Sys) (submit : Event) (html : String) (noise : List Event)
    (hsubmit : submit = Event.click ∨ submit = Event.keydown "Enter")
    (hne : trim σ.page.input.value ≠ "")
    (hp : env.markedParse (JsVal.str (trim σ.page.input.value)) = Except.ok html)
    (hq : ∀ e ∈ noise, e.isSettlement = false) :
    run env σ (submit :: noise) =
      { page := afterSubmit σ.page (trim σ.page.input.value) html
        awaitingFetch := σ.awaitingFetch + 1
        awaitingJson := σ.awaitingJson
        sent := σ.sent ++ [request (σ.page.conversation ++
          [{ role := Role.user, content := JsVal.str (trim σ.page.input.value) }])] } := by
  rw [run_cons, step_submit env σ submit html hsubmit hne hp]
  exact quiet_run env _ noise rfl rfl hq

/-- A failed outbound call, delivered to the activation suspended by
`run_submit`. -/
theorem step_fetch_failed (env : Env) (s : State) (f j : Nat) (sent : List Request)
    (r : FetchResult) (hr : r.failed = true) :
    step env { page := s, awaitingFetch := f + 1, awaitingJson := j, sent := sent }
        (Event.fetchSettled r) =
      { page := catchFinally env s r.errorMessage, awaitingFetch := f, awaitingJson := j,
        sent := sent } := by
  cases r with
  | rejected message => simp [step, resumeFetch, FetchResult.errorMessage]
  | response status =>
    have hok : responseOk status = false := by simpa [FetchResult.failed] using hr
    simp [step, resumeFetch, FetchResult.errorMessage, hok]

theorem step_fetch_ok (env : Env) (s : State) (f j : Nat) (sent : List Request)
    (status : Nat) (hok : responseOk status = true) :
    step env { page := s, awaitingFetch := f + 1, awaitingJson := j, sent := sent }
        (Event.fetchSettled (FetchResult.response status)) =
      { page := s, awaitingFetch := f, awaitingJson := j + 1, sent := sent } := by
  simp [step, resumeFetch, hok]

theorem step_json (env : Env) (s : State) (f j : Nat) (sent : List Request)
    (r : Except String JsVal) :
    step env { page := s, awaitingFetch := f, awaitingJson := j + 1, sent := sent }
        (Event.jsonSettled r) =
      { page := resumeJson env s r, awaitingFetch := f, awaitingJson := j, sent := sent } := by
  simp [step]

/-! ## The claims -/

/-- Claim C1. From an idle state with transcript `T` and a text field whose
trimmed value `u` is not empty, a submission (click or Enter) followed by a
response with a 2xx status whose body has `choices[0].message.content = r`, a
string, ends with the transcript `T ++ [user u, assistant r]`, of length
`|T| + 2`, and with no activation pending.  The renderer is assumed to accept
the two strings; whatever the user does while the call is pending changes
nothing. -/
theorem sendMessage_success_transcript (env : Env) (σ : Sys) (T : List Message)
    (u r htmlU htmlR : String) (submit : Event) (status : Nat) (data : JsVal)
    (noise₁ noise₂ : List Event)
    (hidle : σ.pending = 0) (hT : σ.page.conversation = T)
    (hu : trim σ.page.input.value = u) (hne : u ≠ "")
    (hsubmit : submit = Event.click ∨ submit = Event.keydown "Enter")
    (hmu : env.markedParse (JsVal.str u) = Except.ok htmlU)
    (hmr : env.markedParse (JsVal.str r) = Except.ok htmlR)
    (hok : responseOk status = true)
    (hdata : botReplyOf env data = Except.ok (JsVal.str r))
    (hq₁ : ∀ e ∈ noise₁, e.isSettlement = false)
    (hq₂ : ∀ e ∈ noise₂, e.isSettlement = false) :
    (run env σ ((submit :: noise₁) ++ (Event.fetchSettled (FetchResult.response status) :: noise₂) ++
        [Event.jsonSettled (Except.ok data)])).page.conversation =
      T ++ [{ role := Role.user, content := JsVal.str u },
            { role := Role.assistant, content := JsVal.str r }] ∧
    (run env σ ((submit :: noise₁) ++ (Event.fetchSettled (FetchResult.response status) :: noise₂) ++
        [Event.jsonSettled (Except.ok data)])).page.conversation.length = T.length + 2 ∧
    (run env σ ((submit :: noise₁) ++ (Event.fetchSettled (FetchResult.response status) :: noise₂) ++
        [Event.jsonSettled (Except.ok data)])).pending = 0 := by
  subst hu hT
  have hf0 : σ.awaitingFetch = 0 := by simp only [Sys.pending] at hidle; omega
  have hj0 : σ.awaitingJson = 0 := by simp only [Sys.pending] at hidle; omega
  rw [run_append, run_append, run_submit env σ submit htmlU noise₁ hsubmit hne hmu hq₁,
    run_cons env _ (Event.fetchSettled (FetchResult.response status)) noise₂,
    step_fetch_ok env _ _ _ _ status hok, quiet_run env _ noise₂ rfl rfl hq₂,
    run_cons env _ (Event.jsonSettled (Except.ok data)) [], step_json, run_nil]
  simp [resumeJson, hdata, appendMessage, hmr, removeTypingIndicator, finallyBlock,
    afterSubmit, Sys.pending, hf0, hj0]

/-- The scenario of C1: the initial transcript, the text `Hi`, the reply
`Hello`. -/
theorem sendMessage_success_transcript_witness :
    (run envStrict (step envStrict (initSys [] true) (Event.typeText "Hi"))
        ((Event.click :: [Event.typeText "x", Event.click]) ++
          (Event.fetchSettled (FetchResult.response 200) :: [Event.keydown "Enter"]) ++
          [Event.jsonSettled (Except.ok (JsVal.obj [("choices", JsVal.arr
            [JsVal.obj [("message", JsVal.obj [("content", JsVal.str "Hello")])]])]))])).page.conversation =
      [systemMessage] ++ [{ role := Role.user, content := JsVal.str "Hi" },
            { role := Role.assistant, content := JsVal.str "Hello" }] ∧
    (run envStrict (step envStrict (initSys [] true) (Event.typeText "Hi"))
        ((Event.click :: [Event.typeText "x", Event.click]) ++
          (Event.fetchSettled (FetchResult.response 200) :: [Event.keydown "Enter"]) ++
          [Event.jsonSettled (Except.ok (JsVal.obj [("choices", JsVal.arr
            [JsVal.obj [("message", JsVal.obj [("content", JsVal.str "Hello")])]])]))])).page.conversation.length =
      [systemMessage].length + 2 ∧
    (run envStrict (step envStrict (initSys [] true) (Event.typeText "Hi"))
        ((Event.click :: [Event.typeText "x", Event.click]) ++
          (Event.fetchSettled (FetchResult.response 200) :: [Event.keydown "Enter"]) ++
          [Event.jsonSettled (Except.ok (JsVal.obj [("choices", JsVal.arr
            [JsVal.obj [("message", JsVal.obj [("content", JsVal.str "Hello")])]])]))])).pending = 0 :=
  sendMessage_success_transcript envStrict
    (step envStrict (initSys [] true) (Event.typeText "Hi")) [systemMessage] "Hi" "Hello" "Hi" "Hello"
    Event.click 200 _ [Event.typeText "x", Event.click] [Event.keydown "Enter"]
    (by decide) rfl (by decide) (by decide) (Or.inl rfl) rfl rfl (by decide) rfl
    (by simp [Event.isSettlement]) (by simp [Event.isSettlement])

/-- Claim C2. From an idle state with transcript `T` and a text field whose
trimmed value `u` is not empty, a submission followed by a failed call (`fetch`
rejects, or the status is not 2xx) ends with the transcript `T ++ [user u]`,
of length `|T| + 1`: no assistant entry is added, and no activation is pending.
The renderer is assumed to accept `u`. -/
theorem sendMessage_failure_transcript (env : Env) (σ : Sys) (T : List Message)
    (u htmlU : String) (submit : Event) (r : FetchResult) (noise : List Event)
    (hidle : σ.pending = 0) (hT : σ.page.conversation = T)
    (hu : trim σ.page.input.value = u) (hne : u ≠ "")
    (hsubmit : submit = Event.click ∨ submit = Event.keydown "Enter")
    (hmu : env.markedParse (JsVal.str u) = Except.ok htmlU)
    (hfail : r.failed = true)
    (hq : ∀ e ∈ noise, e.isSettlement = false) :
    (run env σ ((submit :: noise) ++ [Event.fetchSettled r])).page.conversation =
      T ++ [{ role := Role.user, content := JsVal.str u }] ∧
    (run env σ ((submit :: noise) ++ [Event.fetchSettled r])).page.conversation.length =
      T.length + 1 ∧
    (run env σ ((submit :: noise) ++ [Event.fetchSettled r])).pending = 0 := by
  subst hu hT
  have hf0 : σ.awaitingFetch = 0 := by simp only [Sys.pending] at hidle; omega
  have hj0 : σ.awaitingJson = 0 := by simp only [Sys.pending] at hidle; omega
  rw [run_append, run_submit env σ submit htmlU noise hsubmit hne hmu hq,
    run_cons env _ (Event.fetchSettled r) [], step_fetch_failed env _ _ _ _ r hfail, run_nil,
    catchFinally_eq]
  simp [afterSubmit, Sys.pending, hf0, hj0]

/-- The scenario of C2: the initial transcript, the text `Hi`, HTTP 500. -/
theorem sendMessage_failure_transcript_witness :
    (run envStrict (step envStrict (initSys [] true) (Event.typeText "Hi"))
        ((Event.click :: [Event.click]) ++
          [Event.fetchSettled (FetchResult.response 500)])).page.conversation =
      [systemMessage] ++ [{ role := Role.user, content := JsVal.str "Hi" }] ∧
    (run envStrict (step envStrict (initSys [] true) (Event.typeText "Hi"))
        ((Event.click :: [Event.click]) ++
          [Event.fetchSettled (FetchResult.response 500)])).page.conversation.length =
      [systemMessage].length + 1 ∧
    (run envStrict (step envStrict (initSys [] true) (Event.typeText "Hi"))
        ((Event.click :: [Event.click]) ++
          [Event.fetchSettled (FetchResult.response 500)])).pending = 0 :=
  sendMessage_failure_transcript envStrict
    (step envStrict (initSys [] true) (Event.typeText "Hi")) [systemMessage] "Hi" "Hi"
    Event.click (FetchResult.response 500) [Event.click]
    (by decide) rfl (by decide) (by decide) (Or.inl rfl) rfl (by decide)
    (by simp [Event.isSettlement])

/-- Claim C3. When the value of the text field is empty or holds only white
space or line terminators, `sendMessage` returns at once with the state as it
was, and the listeners that call it leave the whole system unchanged:
transcript, first-message flag, chat log, text field, disabled flags, pending
activations and the log of outbound calls. -/
theorem sendMessage_blank_noop (env : Env) (σ : Sys)
    (hblank : ∀ c ∈ σ.page.input.value.data, isTrimmed c = true) :
    sendMessage env σ.page = Started.returned σ.page ∧
    step env σ Event.click = σ ∧
    step env σ (Event.keydown "Enter") = σ := by
  have ht : trim σ.page.input.value = "" := trim_of_all_trimmed _ hblank
  refine ⟨sendMessage_of_trim_empty env σ.page ht, invoke_of_trim_empty env σ ht, ?_⟩
  simpa [step] using invoke_of_trim_empty env σ ht

/-- A blank submission in the middle of a conversation. -/
theorem sendMessage_blank_noop_witness :
    sendMessage envStrict
        (run envStrict (initSys ["welcome"] true)
          [Event.typeText "Hi", Event.click, Event.fetchSettled (FetchResult.rejected "offline"),
            Event.typeText " \t\n "]).page =
      Started.returned
        (run envStrict (initSys ["welcome"] true)
          [Event.typeText "Hi", Event.click, Event.fetchSettled (FetchResult.rejected "offline"),
            Event.typeText " \t\n "]).page ∧
    step envStrict
        (run envStrict (initSys ["welcome"] true)
          [Event.typeText "Hi", Event.click, Event.fetchSettled (FetchResult.rejected "offline"),
            Event.typeText " \t\n "]) Event.click =
      run envStrict (initSys ["welcome"] true)
        [Event.typeText "Hi", Event.click, Event.fetchSettled (FetchResult.rejected "offline"),
          Event.typeText " \t\n "] ∧
    step envStrict
        (run envStrict (initSys ["welcome"] true)
          [Event.typeText "Hi", Event.click, Event.fetchSettled (FetchResult.rejected "offline"),
            Event.typeText " \t\n "]) (Event.keydown "Enter") =
      run envStrict (initSys ["welcome"] true)
        [Event.typeText "Hi", Event.click, Event.fetchSettled (FetchResult.rejected "offline"),
          Event.typeText " \t\n "] :=
  sendMessage_blank_noop envStrict
    (run envStrict (initSys ["welcome"] true)
      [Event.typeText "Hi", Event.click, Event.fetchSettled (FetchResult.rejected "offline"),
        Event.typeText " \t\n "])
    (by decide)

theorem sent_step_settlement (env : Env) (τ : Sys) (e : Event) (he : e.isSettlement = true) :
    (step env τ e).sent = τ.sent := by
  cases e with
  | typeText v => simp [Event.isSettlement] at he
  | click => simp [Event.isSettlement] at he
  | keydown key => simp [Event.isSettlement] at he
  | fetchSettled r =>
    simp only [step]
    split
    · rfl
    · cases r with
      | rejected message => rfl
      | response status =>
        by_cases hok : responseOk status = true <;> simp [resumeFetch, hok]
  | jsonSettled r =>
    simp only [step]
    split <;> rfl

/-- Claim C5. When the trimmed value `u` of the text field is not empty (and
the renderer accepts it), `sendMessage` appends the one entry `user u` to the
transcript `T` and then suspends at a call whose body holds
`messages = T ++ [user u]`, `model = "llama3-8b-8192"`, `max_tokens = 200` and
`temperature = 0.7`; a submission logs this call and no other, and the
continuations of `sendMessage` issue no call. -/
theorem sendMessage_request (env : Env) (σ : Sys) (T : List Message) (u htmlU : String)
    (submit : Event) (noise : List Event)
    (hT : σ.page.conversation = T)
    (hu : trim σ.page.input.value = u) (hne : u ≠ "")
    (hsubmit : submit = Event.click ∨ submit = Event.keydown "Enter")
    (hmu : env.markedParse (JsVal.str u) = Except.ok htmlU)
    (hq : ∀ e ∈ noise, e.isSettlement = false) :
    (∃ s req, sendMessage env σ.page = Started.awaitFetch s req ∧
      s.conversation = T ++ [{ role := Role.user, content := JsVal.str u }] ∧
      req.messages = T ++ [{ role := Role.user, content := JsVal.str u }] ∧
      req.model = "llama3-8b-8192" ∧ req.max_tokens = 200 ∧ req.temperature = 7 / 10 ∧
      req.method = "POST" ∧
      (run env σ (submit :: noise)).sent = σ.sent ++ [req] ∧
      (run env σ (submit :: noise)).page.conversation = s.conversation) ∧
    (∀ (τ : Sys) (e : Event), e.isSettlement = true → (step env τ e).sent = τ.sent) := by
  subst hu hT
  refine ⟨⟨_, _, sendMessage_of_parse env σ.page htmlU hne hmu, rfl, rfl, rfl, rfl, rfl, rfl, ?_, ?_⟩,
    sent_step_settlement env⟩
  · rw [run_submit env σ submit htmlU noise hsubmit hne hmu hq]
  · rw [run_submit env σ submit htmlU noise hsubmit hne hmu hq]
    rfl

/-- The call issued for the text `Hi` typed into the loaded page. -/
theorem sendMessage_request_witness :
    (∃ s req, sendMessage envStrict
        (step envStrict (initSys [] true) (Event.typeText " Hi ")).page = Started.awaitFetch s req ∧
      s.conversation = [systemMessage] ++ [{ role := Role.user, content := JsVal.str "Hi" }] ∧
      req.messages = [systemMessage] ++ [{ role := Role.user, content := JsVal.str "Hi" }] ∧
      req.model = "llama3-8b-8192" ∧ req.max_tokens = 200 ∧ req.temperature = 7 / 10 ∧
      req.method = "POST" ∧
      (run envStrict (step envStrict (initSys [] true) (Event.typeText " Hi "))
        (Event.keydown "Enter" :: [Event.click])).sent =
        (step envStrict (initSys [] true) (Event.typeText " Hi ")).sent ++ [req] ∧
      (run envStrict (step envStrict (initSys [] true) (Event.typeText " Hi "))
        (Event.keydown "Enter" :: [Event.click])).page.conversation = s.conversation) ∧
    (∀ (τ : Sys) (e : Event), e.isSettlement = true → (step envStrict τ e).sent = τ.sent) :=
  sendMessage_request envStrict (step envStrict (initSys [] true) (Event.typeText " Hi "))
    [systemMessage] "Hi" "Hi" (Event.keydown "Enter") [Event.click]
    rfl (by decide) (by decide) (Or.inr rfl) rfl (by simp [Event.isSettlement])

/-- Claim C4. In every reachable state at most one activation of `sendMessage`
is suspended, and while one is, a further invocation of `sendMessage` returns
at once: the click listener and the Enter keydown listener leave the whole
system as it was (nothing is appended to the transcript, no call is logged and
no activation is added), and so does any sequence of user actions. -/
theorem sendMessage_single_flight (env : Env) (σ : Sys) (h : Reachable env σ) :
    σ.pending ≤ 1 ∧
    (0 < σ.pending →
      sendMessage env σ.page = Started.returned σ.page ∧
      step env σ Event.click = σ ∧
      step env σ (Event.keydown "Enter") = σ ∧
      ∀ noise : List Event, (∀ e ∈ noise, e.isSettlement = false) → run env σ noise = σ) := by
  have hinv := inv_of_reachable env h
  refine ⟨hinv.pending_le, fun hp => ?_⟩
  have h1 : σ.pending = 1 := by have := hinv.pending_le; omega
  have hs := hinv.sending h1
  have ht : trim σ.page.input.value = "" := by rw [hs.2.2.1]; exact trim_empty
  exact ⟨sendMessage_of_trim_empty env σ.page ht,
    quiet_step env σ Event.click hs.1 hs.2.2.1 rfl,
    quiet_step env σ (Event.keydown "Enter") hs.1 hs.2.2.1 rfl,
    fun noise hq => quiet_run env σ noise hs.1 hs.2.2.1 hq⟩

/-- A second submission while the call for `Hi` is pending. -/
theorem sendMessage_single_flight_witness :
    sentHi.pending = 1 ∧
    sendMessage envStrict sentHi.page = Started.returned sentHi.page ∧
    step envStrict sentHi Event.click = sentHi ∧
    step envStrict sentHi (Event.keydown "Enter") = sentHi ∧
    run envStrict sentHi [Event.typeText "again", Event.click, Event.keydown "Enter"] = sentHi :=
  have hw := sendMessage_single_flight envStrict sentHi
    (Reachable.step (Reachable.step (Reachable.init ["welcome"] true) (Event.typeText "Hi"))
      Event.click)
  have hs := hw.2 (by decide)
  ⟨by decide, hs.1, hs.2.1, hs.2.2.1,
    hs.2.2.2 [Event.typeText "again", Event.click, Event.keydown "Enter"]
      (by simp [Event.isSettlement])⟩

/-- Claim C7, at the failing input. The user text is markup of an element
with id `typing-indicator` and the call succeeds with the reply `Hello`.  The
state is reachable, no activation is pending and both controls are enabled,
but `removeTypingIndicator` has removed the element of the user entry, which
comes first in the document, and the typing indicator remains in the chat log
between the user entry and the reply; during the next submission two typing
indicators are shown. -/
theorem typing_indicator_left_behind :
    Reachable envStrict repliedIndicator ∧
    repliedIndicator.pending = 0 ∧
    repliedIndicator.page.input.disabled = false ∧
    repliedIndicator.page.sendBtn.disabled = false ∧
    repliedIndicator.page.chatbox.children =
      [Node.message "message user-message" "U" "", Node.typing,
        Node.message "message bot-message" "B" "Hello"] ∧
    (run envStrict repliedIndicator [Event.typeText "Hi", Event.click]).pending = 1 ∧
    (run envStrict repliedIndicator
      [Event.typeText "Hi", Event.click]).page.chatbox.children.count Node.typing = 2 := by
  refine ⟨?_, by decide, by decide, by decide, by decide, by decide, by decide⟩
  exact Reachable.step (Reachable.step (Reachable.step (Reachable.step
    (Reachable.init ["welcome"] true) (Event.typeText indicatorMarkup)) Event.click)
    (Event.fetchSettled (FetchResult.response 200)))
    (Event.jsonSettled (Except.ok (JsVal.obj [("choices", JsVal.arr
      [JsVal.obj [("message", JsVal.obj [("content", JsVal.str "Hello")])]])])))

/-! ## The transcript -/

theorem shape_head {t : List Message} (h : Shape t) : ∃ rest, t = systemMessage :: rest := by
  induction h with
  | start => exact ⟨[], rfl⟩
  | user c u _ ih =>
    obtain ⟨rest, rfl⟩ := ih
    exact ⟨rest ++ [{ role := Role.user, content := u }], by simp⟩
  | reply c u r _ ih =>
    obtain ⟨rest, hrest⟩ := ih
    rw [hrest]
    exact ⟨rest ++ [{ role := Role.assistant, content := r }], by simp⟩

theorem getElem?_snoc_cases {α : Type} (l : List α) (a b : α) (i : Nat)
    (h : (l ++ [a])[i]? = some b) : l[i]? = some b ∨ (i = l.length ∧ b = a) := by
  by_cases hi : i < l.length
  · rw [List.getElem?_append_left hi] at h
    exact Or.inl h
  · right
    rw [List.getElem?_append_right (by omega)] at h
    by_cases h0 : i - l.length = 0
    · rw [h0] at h
      simp at h
      exact ⟨by omega, h.symm⟩
    · obtain ⟨k, hk⟩ : ∃ k, i - l.length = k + 1 := ⟨i - l.length - 1, by omega⟩
      rw [hk] at h
      simp at h

theorem getElem?_snoc_of_getElem? {α : Type} (l : List α) (a b : α) (i : Nat)
    (h : l[i]? = some b) : (l ++ [a])[i]? = some b := by
  have hi : i < l.length := by
    by_contra hn
    rw [List.getElem?_eq_none (by omega)] at h
    cases h
  rw [List.getElem?_append_left hi]
  exact h

theorem getElem?_snoc_length {α : Type} (l : List α) (a : α) : (l ++ [a])[l.length]? = some a := by
  simp

theorem shape_system_first {t : List Message} (h : Shape t) :
    ∀ (i : Nat) (m : Message), t[i]? = some m → m.role = Role.system → i = 0 := by
  induction h with
  | start =>
    intro i m hm _
    cases i with
    | zero => rfl
    | succ k => simp at hm
  | user c u _ ih =>
    intro i m hm hr
    rcases getElem?_snoc_cases c _ m i hm with h1 | ⟨_, h2⟩
    · exact ih i m h1 hr
    · rw [h2] at hr
      cases hr
  | reply c u r _ ih =>
    intro i m hm hr
    rcases getElem?_snoc_cases _ _ m i hm with h1 | ⟨_, h2⟩
    · exact ih i m h1 hr
    · rw [h2] at hr
      cases hr

theorem shape_assistant_after_user {t : List Message} (h : Shape t) :
    ∀ (i : Nat) (m : Message), t[i]? = some m → m.role = Role.assistant →
      ∃ (j : Nat) (p : Message), i = j + 1 ∧ t[j]? = some p ∧ p.role = Role.user := by
  induction h with
  | start =>
    intro i m hm hr
    cases i with
    | zero =>
      simp at hm
      rw [← hm] at hr
      cases hr
    | succ k => simp at hm
  | user c u _ ih =>
    intro i m hm hr
    rcases getElem?_snoc_cases c _ m i hm with h1 | ⟨_, h2⟩
    · obtain ⟨j, p, hj, hp, hpr⟩ := ih i m h1 hr
      exact ⟨j, p, hj, getElem?_snoc_of_getElem? c _ p j hp, hpr⟩
    · rw [h2] at hr
      cases hr
  | reply c u r _ ih =>
    intro i m hm hr
    rcases getElem?_snoc_cases _ _ m i hm with h1 | ⟨hi, _⟩
    · obtain ⟨j, p, hj, hp, hpr⟩ := ih i m h1 hr
      exact ⟨j, p, hj, getElem?_snoc_of_getElem? _ _ p j hp, hpr⟩
    · refine ⟨c.length, { role := Role.user, content := u }, ?_, ?_, rfl⟩
      · rw [hi]
        simp
      · apply getElem?_snoc_of_getElem?
        exact getElem?_snoc_length c _

theorem countRole_snoc (r : Role) (c : List Message) (m : Message) :
    countRole r (c ++ [m]) = countRole r c + (if m.role = r then 1 else 0) := by
  unfold countRole
  rw [List.filter_append, List.length_append]
  by_cases h : m.role = r <;> simp [List.filter, h]

theorem shape_count {t : List Message} (h : Shape t) :
    countRole Role.assistant t ≤ countRole Role.user t ∧
    (∀ d u, t = d ++ [{ role := Role.user, content := u }] →
      countRole Role.assistant t + 1 ≤ countRole Role.user t) := by
  induction h with
  | start =>
    refine ⟨by decide, ?_⟩
    intro d u hd
    have hlast := congrArg List.getLast? hd
    simp [systemMessage] at hlast
  | user c u _ ih =>
    have h1 : countRole Role.assistant (c ++ [{ role := Role.user, content := u }]) =
        countRole Role.assistant c := by rw [countRole_snoc]; simp
    have h2 : countRole Role.user (c ++ [{ role := Role.user, content := u }]) =
        countRole Role.user c + 1 := by rw [countRole_snoc]; simp
    have h3 := ih.1
    refine ⟨by omega, fun _ _ _ => by omega⟩
  | reply c u r _ ih =>
    have h1 : countRole Role.assistant
        ((c ++ [{ role := Role.user, content := u }]) ++ [{ role := Role.assistant, content := r }]) =
        countRole Role.assistant (c ++ [{ role := Role.user, content := u }]) + 1 := by
      rw [countRole_snoc]; simp
    have h2 : countRole Role.user
        ((c ++ [{ role := Role.user, content := u }]) ++ [{ role := Role.assistant, content := r }]) =
        countRole Role.user (c ++ [{ role := Role.user, content := u }]) := by
      rw [countRole_snoc]; simp
    have h3 := ih.2 c u rfl
    refine ⟨by omega, ?_⟩
    intro d v hd
    have hlast := congrArg List.getLast? hd
    simp at hlast

theorem reachable_run (env : Env) {σ : Sys} (h : Reachable env σ) (events : List Event) :
    Reachable env (run env σ events) := by
  induction events generalizing σ with
  | nil => exact h
  | cons e es ih => exact ih (Reachable.step h e)

theorem invoke_conversation (env : Env) (σ : Sys) :
    ∃ added, (invoke env σ).page.conversation = σ.page.conversation ++ added := by
  rcases sendMessage_cases env σ.page with ⟨_, hs⟩ | ⟨_, e, _, hs⟩ | ⟨_, html, _, hs⟩
  · exact ⟨[], by simp [invoke, hs]⟩
  · exact ⟨[], by simp [invoke, hs]⟩
  · exact ⟨[{ role := Role.user, content := JsVal.str (trim σ.page.input.value) }],
      by simp [invoke, hs]⟩

theorem resumeJson_conversation (env : Env) (s : State) (r : Except String JsVal) :
    ∃ added, (resumeJson env s r).conversation = s.conversation ++ added := by
  cases r with
  | error message => exact ⟨[], by simp [resumeJson, catchFinally_eq]⟩
  | ok data =>
    simp only [resumeJson]
    cases botReplyOf env data with
    | error e => exact ⟨[], by simp [catchFinally_eq]⟩
    | ok botReply =>
      simp only [appendMessage]
      cases env.markedParse botReply with
      | error e => exact ⟨[], by simp [catchFinally_eq, removeTypingIndicator]⟩
      | ok html =>
        exact ⟨[{ role := Role.assistant, content := botReply }],
          by simp [finallyBlock, removeTypingIndicator]⟩

theorem step_conversation (env : Env) (σ : Sys) (e : Event) :
    ∃ added, (step env σ e).page.conversation = σ.page.conversation ++ added := by
  cases e with
  | typeText v =>
    refine ⟨[], ?_⟩
    simp only [step]
    split <;> simp
  | click => exact invoke_conversation env σ
  | keydown key =>
    simp only [step]
    split
    · exact invoke_conversation env σ
    · exact ⟨[], by simp⟩
  | fetchSettled r =>
    refine ⟨[], ?_⟩
    simp only [step]
    split
    · simp
    · cases r with
      | rejected message => simp [resumeFetch, catchFinally_eq]
      | response status =>
        by_cases hok : responseOk status = true <;> simp [resumeFetch, hok, catchFinally_eq]
  | jsonSettled r =>
    simp only [step]
    split
    · exact ⟨[], by simp⟩
    · exact resumeJson_conversation env σ.page r

theorem run_conversation (env : Env) (σ : Sys) (events : List Event) :
    ∃ added, (run env σ events).page.conversation = σ.page.conversation ++ added := by
  induction events generalizing σ with
  | nil => exact ⟨[], by simp [run]⟩
  | cons e es ih =>
    obtain ⟨a, ha⟩ := step_conversation env σ e
    obtain ⟨b, hb⟩ := ih (step env σ e)
    exact ⟨a ++ b, by rw [run_cons, hb, ha, List.append_assoc]⟩

/-- Claim C8. In every reachable state the first element of the transcript
is the system message set at initialization, and every turn of the event
loop, hence every run of it, leaves the transcript it found as an initial
segment of the new one: entries are only ever appended. -/
theorem transcript_append_only (env : Env) (σ : Sys) (h : Reachable env σ) :
    σ.page.conversation.head? = some systemMessage ∧
    (∀ e : Event, ∃ added,
      (step env σ e).page.conversation = σ.page.conversation ++ added) ∧
    (∀ events : List Event, ∃ added,
      (run env σ events).page.conversation = σ.page.conversation ++ added) := by
  obtain ⟨rest, hrest⟩ := shape_head (inv_of_reachable env h).shape
  exact ⟨by rw [hrest]; rfl, step_conversation env σ, run_conversation env σ⟩

/-- The transcript while the call for `Hi` is pending. -/
theorem transcript_append_only_witness :
    sentHi.page.conversation.head? = some systemMessage ∧
    (∀ e : Event, ∃ added,
      (step envStrict sentHi e).page.conversation = sentHi.page.conversation ++ added) ∧
    (∀ events : List Event, ∃ added,
      (run envStrict sentHi events).page.conversation = sentHi.page.conversation ++ added) :=
  transcript_append_only envStrict sentHi
    (Reachable.step (Reachable.step (Reachable.init ["welcome"] true) (Event.typeText "Hi"))
      Event.click)

/-- Claim C10. In every reachable transcript an assistant entry stands right
after a user entry, so no two assistant entries are adjacent; an entry is the
system entry exactly when it stands at index 0; and the assistant entries are
at most as many as the user entries.  User and assistant entries need not
alternate: after a failed submission and a second one, two user entries are
adjacent. -/
theorem transcript_roles (env : Env) (σ : Sys) (h : Reachable env σ) :
    (∀ (i : Nat) (m : Message), σ.page.conversation[i]? = some m → m.role = Role.assistant →
      ∃ (j : Nat) (p : Message),
        i = j + 1 ∧ σ.page.conversation[j]? = some p ∧ p.role = Role.user) ∧
    (∀ (i : Nat) (a b : Message), σ.page.conversation[i]? = some a →
      σ.page.conversation[i + 1]? = some b →
      ¬ (a.role = Role.assistant ∧ b.role = Role.assistant)) ∧
    (∀ (i : Nat) (m : Message), σ.page.conversation[i]? = some m →
      (m.role = Role.system ↔ i = 0)) ∧
    countRole Role.assistant σ.page.conversation ≤ countRole Role.user σ.page.conversation ∧
    (∃ (τ : Sys) (i : Nat) (a b : Message), Reachable envStrict τ ∧
      τ.page.conversation[i]? = some a ∧ τ.page.conversation[i + 1]? = some b ∧
      a.role = Role.user ∧ b.role = Role.user) := by
  have hshape := (inv_of_reachable env h).shape
  refine ⟨shape_assistant_after_user hshape, ?_, ?_, (shape_count hshape).1, ?_⟩
  · intro i a b ha hb hab
    obtain ⟨j, p, hj, hp, hpr⟩ := shape_assistant_after_user hshape (i + 1) b hb hab.2
    have hij : i = j := by omega
    subst hij
    rw [ha] at hp
    cases hp
    rw [hab.1] at hpr
    cases hpr
  · intro i m hm
    constructor
    · exact shape_system_first hshape i m hm
    · intro hi
      obtain ⟨rest, hrest⟩ := shape_head hshape
      rw [hrest, hi] at hm
      simp at hm
      rw [← hm]
      rfl
  · refine ⟨twoUsers, 1, { role := Role.user, content := JsVal.str "Hi" },
      { role := Role.user, content := JsVal.str "again" }, ?_, rfl, rfl, rfl, rfl⟩
    exact reachable_run envStrict (Reachable.init [] true) _

/-- The transcript after `Hi` has been answered with `Hello`: the assistant
entry at index 2 stands right after a user entry. -/
theorem transcript_roles_witness :
    (∃ (j : Nat) (p : Message),
      2 = j + 1 ∧ repliedHi.page.conversation[j]? = some p ∧ p.role = Role.user) ∧
    countRole Role.assistant repliedHi.page.conversation ≤
      countRole Role.user repliedHi.page.conversation ∧
    (∃ (τ : Sys) (i : Nat) (a b : Message), Reachable envStrict τ ∧
      τ.page.conversation[i]? = some a ∧ τ.page.conversation[i + 1]? = some b ∧
      a.role = Role.user ∧ b.role = Role.user) :=
  have hw := transcript_roles envStrict repliedHi
    (Reachable.step (Reachable.step (Reachable.step (Reachable.step
      (Reachable.init ["welcome"] true) (Event.typeText "Hi")) Event.click)
      (Event.fetchSettled (FetchResult.response 200)))
      (Event.jsonSettled (Except.ok (JsVal.obj [("choices", JsVal.arr
        [JsVal.obj [("message", JsVal.obj [("content", JsVal.str "Hello")])]])]))))
  ⟨hw.1 2 { role := Role.assistant, content := JsVal.str "Hello" } rfl rfl, hw.2.2.2.1, hw.2.2.2.2⟩

/-! ## Failed exchanges -/

theorem removeFirstIndicator_append_clean (env : Env) (l r : List Node)
    (hl : ∀ n ∈ l, holdsIndicator env n = false) :
    removeFirstIndicator env (l ++ r) = l ++ removeFirstIndicator env r := by
  induction l with
  | nil => rfl
  | cons a t ih =>
    have ha := hl a (List.mem_cons_self a t)
    have ht := ih (fun n hn => hl n (List.mem_cons_of_mem a hn))
    cases a with
    | static html =>
      have hh : env.hasIndicatorId html = false := ha
      simp [removeFirstIndicator, hh, ht]
    | message className icon html =>
      have hh : env.hasIndicatorId html = false := ha
      simp [removeFirstIndicator, hh, ht]
    | typing => cases ha

theorem removeFirstIndicator_submitted_clean (env : Env) (base : List Node) (htmlU : String)
    (hb : ∀ n ∈ base, holdsIndicator env n = false) (hu : env.hasIndicatorId htmlU = false) :
    removeFirstIndicator env
        (base ++ [Node.message "message user-message" "U" htmlU] ++ [Node.typing]) =
      base ++ [Node.message "message user-message" "U" htmlU] := by
  rw [List.append_assoc, removeFirstIndicator_append_clean env base _ hb]
  simp [removeFirstIndicator, hu]

theorem removeFirstIndicator_clean (env : Env) (l : List Node)
    (hl : ∀ n ∈ l, holdsIndicator env n = false) : removeFirstIndicator env l = l := by
  have h := removeFirstIndicator_append_clean env l [] hl
  simpa [removeFirstIndicator] using h

/-- The user entry is still in the log after `removeTypingIndicator`. -/
theorem user_entry_survives (env : Env) (base post : List Node) (htmlU : String) :
    ∃ pre h rest, removeFirstIndicator env
        (base ++ [Node.message "message user-message" "U" htmlU] ++ post) =
      pre ++ [Node.message "message user-message" "U" h] ++ rest := by
  induction base with
  | nil =>
    by_cases hh : env.hasIndicatorId htmlU = true
    · exact ⟨[], env.removeIndicatorId htmlU, post, by simp [removeFirstIndicator, hh]⟩
    · exact ⟨[], htmlU, removeFirstIndicator env post, by simp [removeFirstIndicator, hh]⟩
  | cons a t ih =>
    obtain ⟨pre, h, rest, hrec⟩ := ih
    cases a with
    | typing => exact ⟨t, htmlU, post, by simp [removeFirstIndicator]⟩
    | static html =>
      by_cases hh : env.hasIndicatorId html = true
      · exact ⟨Node.static (env.removeIndicatorId html) :: t, htmlU, post,
          by simp [removeFirstIndicator, hh]⟩
      · refine ⟨Node.static html :: pre, h, rest, ?_⟩
        simp only [List.cons_append, removeFirstIndicator, hh]
        simpa using hrec
    | message className icon html =>
      by_cases hh : env.hasIndicatorId html = true
      · exact ⟨Node.message className icon (env.removeIndicatorId html) :: t, htmlU, post,
          by simp [removeFirstIndicator, hh]⟩
      · refine ⟨Node.message className icon html :: pre, h, rest, ?_⟩
        simp only [List.cons_append, removeFirstIndicator, hh]
        simpa using hrec

theorem errorEntry_intro (env : Env) (s : State) (htmlU html : String) :
    ErrorEntry env s htmlU html
      (removeFirstIndicator env (submittedChildren s htmlU) ++
        [Node.message "message bot-message" "B" html]) := by
  refine ⟨rfl, ?_, ?_⟩
  · obtain ⟨pre, h, rest, hrec⟩ :=
      user_entry_survives env (if s.isFirstMessage then [] else s.chatbox.children)
        [Node.typing] htmlU
    refine ⟨pre, h, rest, ?_⟩
    unfold submittedChildren
    rw [hrec]
  · intro hb hu
    unfold submittedChildren
    rw [removeFirstIndicator_submitted_clean env _ htmlU hb hu]
    simp

/-- The `catch` block run on a page `s` of the pending exchange. -/
theorem failedWith_of_catch (env : Env) (σ final : Sys) (u message html : String) (s : State)
    (hm : env.markedParse (JsVal.str ("Error: " ++ message)) = Except.ok html)
    (hconv : s.conversation =
      σ.page.conversation ++ [{ role := Role.user, content := JsVal.str u }])
    (hpage : final.page = catchFinally env s message)
    (hf : final.awaitingFetch = 0) (hj : final.awaitingJson = 0)
    (hsent : final.sent = σ.sent ++
      [request (σ.page.conversation ++ [{ role := Role.user, content := JsVal.str u }])]) :
    FailedWith σ final u (removeFirstIndicator env s.chatbox.children) html := by
  refine ⟨?_, ?_, hsent, ?_, ?_, ?_⟩
  · rw [hpage, catchFinally_eq]
    simp [errorChildren, hm]
  · rw [hpage, catchFinally_eq]
    exact hconv
  · simp [Sys.pending, hf, hj]
  · rw [hpage, catchFinally_eq]
  · rw [hpage, catchFinally_eq]

theorem error_text_status (status : Nat) :
    "Error: " ++ ("API error: " ++ toString status) = "Error: API error: " ++ toString status := by
  rw [← String.append_assoc]
  rfl

/-- A submission followed by a failed call, from a state with nothing
pending. -/
theorem run_fetch_failed (env : Env) (σ : Sys) (u htmlU html : String) (submit : Event)
    (r : FetchResult) (noise : List Event)
    (hidle : σ.pending = 0)
    (hu : trim σ.page.input.value = u) (hne : u ≠ "")
    (hsubmit : submit = Event.click ∨ submit = Event.keydown "Enter")
    (hmu : env.markedParse (JsVal.str u) = Except.ok htmlU)
    (hfail : r.failed = true)
    (hm : env.markedParse (JsVal.str ("Error: " ++ r.errorMessage)) = Except.ok html)
    (hq : ∀ e ∈ noise, e.isSettlement = false) :
    FailedWith σ (run env σ ((submit :: noise) ++ [Event.fetchSettled r])) u
      (removeFirstIndicator env (submittedChildren σ.page htmlU)) html := by
  subst hu
  have hp := hidle
  simp only [Sys.pending] at hp
  have hrun : run env σ ((submit :: noise) ++ [Event.fetchSettled r]) =
      { page := catchFinally env (afterSubmit σ.page (trim σ.page.input.value) htmlU) r.errorMessage
        awaitingFetch := σ.awaitingFetch
        awaitingJson := σ.awaitingJson
        sent := σ.sent ++ [request (σ.page.conversation ++
          [{ role := Role.user, content := JsVal.str (trim σ.page.input.value) }])] } := by
    rw [run_append, run_submit env σ submit htmlU noise hsubmit hne hmu hq,
      run_cons env _ (Event.fetchSettled r) [], step_fetch_failed env _ _ _ _ r hfail, run_nil]
  rw [hrun]
  exact failedWith_of_catch env σ _ _ r.errorMessage html
    (afterSubmit σ.page (trim σ.page.input.value) htmlU) hm rfl rfl
    (by simp only; omega) (by simp only; omega) rfl

/-- Claim C9. A submission of the non-empty trimmed text `u` (rendered as
`htmlU`) followed by a response with a non-2xx status appends to the chat log
one bot entry that renders the text `Error: API error: ` and the decimal
status; followed by a rejection of `fetch` with an error carrying `m`, one bot
entry that renders `Error: ` and `m`.  The entry is the last of the log, the
user entry stands before it and no reply entry is added; the log before it is
the log of the pending exchange after `removeTypingIndicator`, which is the
previous log and the user entry when no markup in them holds an element with
id `typing-indicator`. -/
theorem error_entry_text (env : Env) (σ : Sys) (u htmlU : String) (submit : Event)
    (noise : List Event)
    (hidle : σ.pending = 0)
    (hu : trim σ.page.input.value = u) (hne : u ≠ "")
    (hsubmit : submit = Event.click ∨ submit = Event.keydown "Enter")
    (hmu : env.markedParse (JsVal.str u) = Except.ok htmlU)
    (hq : ∀ e ∈ noise, e.isSettlement = false) :
    (∀ (status : Nat) (html : String), responseOk status = false →
      env.markedParse (JsVal.str ("Error: API error: " ++ toString status)) = Except.ok html →
      ErrorEntry env σ.page htmlU html
        (run env σ ((submit :: noise) ++
          [Event.fetchSettled (FetchResult.response status)])).page.chatbox.children) ∧
    (∀ (m html : String),
      env.markedParse (JsVal.str ("Error: " ++ m)) = Except.ok html →
      ErrorEntry env σ.page htmlU html
        (run env σ ((submit :: noise) ++
          [Event.fetchSettled (FetchResult.rejected m)])).page.chatbox.children) := by
  constructor
  · intro status html hok hm
    rw [← error_text_status] at hm
    rw [(run_fetch_failed env σ u htmlU html submit (FetchResult.response status) noise hidle
      hu hne hsubmit hmu (by simp [FetchResult.failed, hok]) hm hq).1]
    exact errorEntry_intro env σ.page htmlU html
  · intro m html hm
    rw [(run_fetch_failed env σ u htmlU html submit (FetchResult.rejected m) noise hidle
      hu hne hsubmit hmu rfl hm hq).1]
    exact errorEntry_intro env σ.page htmlU html

/-- The chat log after `Hi` is answered with HTTP 500, after the call for `Hi`
is rejected with `Failed to fetch`, and after markup of an element with id
`typing-indicator` is answered with HTTP 500. -/
theorem error_entry_text_witness :
    (run envStrict typedHi ((Event.click :: [Event.click]) ++
        [Event.fetchSettled (FetchResult.response 500)])).page.chatbox.children =
      [Node.message "message user-message" "U" "Hi",
        Node.message "message bot-message" "B" "Error: API error: 500"] ∧
    (run envStrict typedHi ((Event.click :: [Event.click]) ++
        [Event.fetchSettled (FetchResult.rejected "Failed to fetch")])).page.chatbox.children =
      [Node.message "message user-message" "U" "Hi",
        Node.message "message bot-message" "B" "Error: Failed to fetch"] ∧
    (run envStrict typedIndicator ((Event.click :: [Event.click]) ++
        [Event.fetchSettled (FetchResult.response 500)])).page.chatbox.children =
      [Node.message "message user-message" "U" "", Node.typing,
        Node.message "message bot-message" "B" "Error: API error: 500"] :=
  have hw := error_entry_text envStrict typedHi "Hi" "Hi" Event.click [Event.click]
    (by decide) (by decide) (by decide) (Or.inl rfl) rfl (by simp [Event.isSettlement])
  have hv := error_entry_text envStrict typedIndicator indicatorMarkup indicatorMarkup
    Event.click [Event.click]
    (by decide) (by decide) (by decide) (Or.inl rfl) rfl (by simp [Event.isSettlement])
  ⟨(hw.1 500 "Error: API error: 500" (by decide) rfl).2.2 (by decide) (by decide),
    (hw.2 "Failed to fetch" _ rfl).2.2 (by decide) (by decide),
    (hv.1 500 "Error: API error: 500" (by decide) rfl).1⟩

theorem getField_undefined (env : Env) (key : String) :
    getField env JsVal.undefined key =
      Except.error (env.typeErrorMessage JsVal.undefined key) := rfl

theorem getIndex0_undefined (env : Env) :
    getIndex0 env JsVal.undefined = Except.error (env.typeErrorMessage JsVal.undefined "0") := rfl

theorem botReplyOf_of_pathMissing (env : Env) (data : JsVal) (h : replyPathMissing env data) :
    ∃ e, botReplyOf env data = Except.error e := by
  rcases h with h1 | ⟨choices, h1, h2⟩ | ⟨choices, choice, h1, h2, h3⟩
  · refine ⟨env.typeErrorMessage JsVal.undefined "0", ?_⟩
    unfold botReplyOf
    rw [h1]
    dsimp only
    rw [getIndex0_undefined]
  · refine ⟨env.typeErrorMessage JsVal.undefined "message", ?_⟩
    unfold botReplyOf
    rw [h1]
    dsimp only
    rw [h2]
    dsimp only
    rw [getField_undefined]
  · refine ⟨env.typeErrorMessage JsVal.undefined "content", ?_⟩
    unfold botReplyOf
    rw [h1]
    dsimp only
    rw [h2]
    dsimp only
    rw [h3]
    dsimp only
    rw [getField_undefined]

theorem botReplyOf_of_contentMissing (env : Env) (data : JsVal)
    (h : replyContentMissing env data) : botReplyOf env data = Except.ok JsVal.undefined := by
  obtain ⟨choices, choice, message, h1, h2, h3, h4⟩ := h
  unfold botReplyOf
  rw [h1]
  dsimp only
  rw [h2]
  dsimp only
  rw [h3]
  dsimp only
  rw [h4]

/-- A submission from an idle state answered with a 2xx status, up to the
settlement of `response.json()`. -/
theorem run_json (env : Env) (σ : Sys) (htmlU : String) (submit : Event) (status : Nat)
    (j : Except String JsVal) (noise₁ noise₂ : List Event)
    (hne : trim σ.page.input.value ≠ "")
    (hsubmit : submit = Event.click ∨ submit = Event.keydown "Enter")
    (hmu : env.markedParse (JsVal.str (trim σ.page.input.value)) = Except.ok htmlU)
    (hok : responseOk status = true)
    (hq₁ : ∀ e ∈ noise₁, e.isSettlement = false)
    (hq₂ : ∀ e ∈ noise₂, e.isSettlement = false) :
    run env σ ((submit :: noise₁) ++ (Event.fetchSettled (FetchResult.response status) :: noise₂) ++
        [Event.jsonSettled j]) =
      { page := resumeJson env (afterSubmit σ.page (trim σ.page.input.value) htmlU) j
        awaitingFetch := σ.awaitingFetch
        awaitingJson := σ.awaitingJson
        sent := σ.sent ++ [request (σ.page.conversation ++
          [{ role := Role.user, content := JsVal.str (trim σ.page.input.value) }])] } := by
  rw [run_append, run_append, run_submit env σ submit htmlU noise₁ hsubmit hne hmu hq₁,
    run_cons env _ (Event.fetchSettled (FetchResult.response status)) noise₂,
    step_fetch_ok env _ _ _ _ status hok, quiet_run env _ noise₂ rfl rfl hq₂,
    run_cons env _ (Event.jsonSettled j) [], step_json, run_nil]

/-- Claim C6. A submission of the non-empty trimmed text `u`, from a state
with nothing pending, fails in the same way whether `fetch` rejects, the
status is not 2xx, or the status is 2xx and the body is malformed
(`response.json()` rejects, or one of `choices`, `choices[0]`,
`choices[0].message` and `choices[0].message.content` is missing): the chat
log gains one bot entry, the last of the log, rendering a text that starts
with `Error: `; the transcript gains the user entry and no assistant entry;
exactly one call has been issued; nothing is pending and both controls are
enabled.  Before the error entry stands the log of the pending exchange after
`removeTypingIndicator`, called once, and twice when `content` is missing; the
two agree, and are the previous log and the user entry, when no markup in
them holds an element with id `typing-indicator`.  The renderer is assumed to
accept every string and, for a missing `content`, to throw on `undefined`, as
`marked` does. -/
theorem failures_surface_alike (env : Env) (σ : Sys) (u htmlU : String) (submit : Event)
    (noise₁ noise₂ : List Event)
    (hidle : σ.pending = 0)
    (hu : trim σ.page.input.value = u) (hne : u ≠ "")
    (hsubmit : submit = Event.click ∨ submit = Event.keydown "Enter")
    (hmu : env.markedParse (JsVal.str u) = Except.ok htmlU)
    (hstr : ∀ s : String, ∃ html, env.markedParse (JsVal.str s) = Except.ok html)
    (hq₁ : ∀ e ∈ noise₁, e.isSettlement = false)
    (hq₂ : ∀ e ∈ noise₂, e.isSettlement = false) :
    (∀ m : String, FailedExchange env σ
      (run env σ ((submit :: noise₁) ++ [Event.fetchSettled (FetchResult.rejected m)]))
      u htmlU 1) ∧
    (∀ status : Nat, responseOk status = false → FailedExchange env σ
      (run env σ ((submit :: noise₁) ++ [Event.fetchSettled (FetchResult.response status)]))
      u htmlU 1) ∧
    (∀ (status : Nat) (m : String), responseOk status = true → FailedExchange env σ
      (run env σ ((submit :: noise₁) ++
        (Event.fetchSettled (FetchResult.response status) :: noise₂) ++
        [Event.jsonSettled (Except.error m)])) u htmlU 1) ∧
    (∀ (status : Nat) (data : JsVal), responseOk status = true → replyPathMissing env data →
      FailedExchange env σ
        (run env σ ((submit :: noise₁) ++
          (Event.fetchSettled (FetchResult.response status) :: noise₂) ++
          [Event.jsonSettled (Except.ok data)])) u htmlU 1) ∧
    (∀ (status : Nat) (data : JsVal), responseOk status = true → replyContentMissing env data →
      (∃ e, env.markedParse JsVal.undefined = Except.error e) →
      FailedExchange env σ
        (run env σ ((submit :: noise₁) ++
          (Event.fetchSettled (FetchResult.response status) :: noise₂) ++
          [Event.jsonSettled (Except.ok data)])) u htmlU 2) ∧
    ((∀ n ∈ (if σ.page.isFirstMessage then [] else σ.page.chatbox.children),
        holdsIndicator env n = false) →
      env.hasIndicatorId htmlU = false →
      ∀ removals : Nat, 0 < removals →
        (removeFirstIndicator env)^[removals] (submittedChildren σ.page htmlU) =
          (if σ.page.isFirstMessage then [] else σ.page.chatbox.children) ++
            [Node.message "message user-message" "U" htmlU]) := by
  have hp := hidle
  simp only [Sys.pending] at hp
  have hf0 : σ.awaitingFetch = 0 := by omega
  have hj0 : σ.awaitingJson = 0 := by omega
  refine ⟨?_, ?_, ?_, ?_, ?_, ?_⟩
  · intro m
    obtain ⟨html, hm⟩ := hstr ("Error: " ++ m)
    exact ⟨m, html, hm, run_fetch_failed env σ u htmlU html submit (FetchResult.rejected m) noise₁
      hidle hu hne hsubmit hmu rfl hm hq₁⟩
  · intro status hok
    obtain ⟨html, hm⟩ := hstr ("Error: " ++ ("API error: " ++ toString status))
    exact ⟨_, html, hm, run_fetch_failed env σ u htmlU html submit (FetchResult.response status)
      noise₁ hidle hu hne hsubmit hmu (by simp [FetchResult.failed, hok]) hm hq₁⟩
  · intro status m hok
    subst hu
    obtain ⟨html, hm⟩ := hstr ("Error: " ++ m)
    rw [run_json env σ htmlU submit status _ noise₁ noise₂ hne hsubmit hmu hok hq₁ hq₂]
    exact ⟨m, html, hm, failedWith_of_catch env σ _ _ m html
      (afterSubmit σ.page (trim σ.page.input.value) htmlU) hm rfl rfl hf0 hj0 rfl⟩
  · intro status data hok hmiss
    subst hu
    obtain ⟨e, he⟩ := botReplyOf_of_pathMissing env data hmiss
    obtain ⟨html, hm⟩ := hstr ("Error: " ++ e)
    rw [run_json env σ htmlU submit status _ noise₁ noise₂ hne hsubmit hmu hok hq₁ hq₂]
    refine ⟨e, html, hm, failedWith_of_catch env σ _ _ e html
      (afterSubmit σ.page (trim σ.page.input.value) htmlU) hm rfl ?_ hf0 hj0 rfl⟩
    simp [resumeJson, he]
  · intro status data hok hmiss hundef
    subst hu
    obtain ⟨e, he⟩ := hundef
    have hreply := botReplyOf_of_contentMissing env data hmiss
    obtain ⟨html, hm⟩ := hstr ("Error: " ++ e)
    rw [run_json env σ htmlU submit status _ noise₁ noise₂ hne hsubmit hmu hok hq₁ hq₂]
    refine ⟨e, html, hm, failedWith_of_catch env σ _ _ e html
      (removeTypingIndicator env (afterSubmit σ.page (trim σ.page.input.value) htmlU))
      hm rfl ?_ hf0 hj0 rfl⟩
    simp [resumeJson, hreply, appendMessage, he]
  · intro hb hclean removals hpos
    have hone := removeFirstIndicator_submitted_clean env _ htmlU hb hclean
    have hfix : removeFirstIndicator env
        ((if σ.page.isFirstMessage then [] else σ.page.chatbox.children) ++
          [Node.message "message user-message" "U" htmlU]) =
        (if σ.page.isFirstMessage then [] else σ.page.chatbox.children) ++
          [Node.message "message user-message" "U" htmlU] := by
      apply removeFirstIndicator_clean
      intro n hn
      rcases List.mem_append.mp hn with h1 | h1
      · exact hb n h1
      · rw [List.mem_singleton] at h1
        rw [h1]
        exact hclean
    obtain ⟨k, rfl⟩ : ∃ k, removals = k + 1 := ⟨removals - 1, by omega⟩
    rw [Function.iterate_succ_apply]
    unfold submittedChildren
    rw [hone]
    exact Function.iterate_fixed hfix k

/-- The text `Hi` failing in five ways: `fetch` rejected, HTTP 500, a body
that is not JSON, the body `{}` and a body whose message has no `content`;
each time the log is the user entry followed by the error entry. -/
theorem failures_surface_alike_witness :
    FailedExchange envStrict typedHi
      (run envStrict typedHi ((Event.click :: [Event.click]) ++
        [Event.fetchSettled (FetchResult.rejected "Failed to fetch")])) "Hi" "Hi" 1 ∧
    FailedExchange envStrict typedHi
      (run envStrict typedHi ((Event.click :: [Event.click]) ++
        [Event.fetchSettled (FetchResult.response 500)])) "Hi" "Hi" 1 ∧
    FailedExchange envStrict typedHi
      (run envStrict typedHi ((Event.click :: [Event.click]) ++
        (Event.fetchSettled (FetchResult.response 200) :: [Event.keydown "Enter"]) ++
        [Event.jsonSettled (Except.error "Unexpected end of JSON input")])) "Hi" "Hi" 1 ∧
    FailedExchange envStrict typedHi
      (run envStrict typedHi ((Event.click :: [Event.click]) ++
        (Event.fetchSettled (FetchResult.response 200) :: [Event.keydown "Enter"]) ++
        [Event.jsonSettled (Except.ok (JsVal.obj []))])) "Hi" "Hi" 1 ∧
    FailedExchange envStrict typedHi
      (run envStrict typedHi ((Event.click :: [Event.click]) ++
        (Event.fetchSettled (FetchResult.response 200) :: [Event.keydown "Enter"]) ++
        [Event.jsonSettled (Except.ok (JsVal.obj [("choices",
          JsVal.arr [JsVal.obj [("message", JsVal.obj [])]])]))])) "Hi" "Hi" 2 ∧
    (removeFirstIndicator envStrict)^[1] (submittedChildren typedHi.page "Hi") =
      [Node.message "message user-message" "U" "Hi"] ∧
    (removeFirstIndicator envStrict)^[2] (submittedChildren typedHi.page "Hi") =
      [Node.message "message user-message" "U" "Hi"] :=
  have hw := failures_surface_alike envStrict typedHi "Hi" "Hi" Event.click
    [Event.click] [Event.keydown "Enter"]
    (by decide) (by decide) (by decide) (Or.inl rfl) rfl (fun s => ⟨s, rfl⟩)
    (by simp [Event.isSettlement]) (by simp [Event.isSettlement])
  ⟨hw.1 "Failed to fetch", hw.2.1 500 (by decide),
    hw.2.2.1 200 "Unexpected end of JSON input" (by decide),
    hw.2.2.2.1 200 (JsVal.obj []) (by decide) (Or.inl rfl),
    hw.2.2.2.2.1 200 _ (by decide) ⟨_, _, _, rfl, rfl, rfl, rfl⟩ ⟨_, rfl⟩,
    hw.2.2.2.2.2 (by decide) (by decide) 1 (by decide),
    hw.2.2.2.2.2 (by decide) (by decide) 2 (by decide)⟩

end Talksy
